import Mathlib

/-!
Verification of the ArchivesSpace python client (`archivesspace.py`, with the
earlier `aspy.py` variant where it differs).  The client is embedded shallowly:
JSON documents become the inductive `JsonValue`, python exceptions become the
inductive `PyExc`, request dictionaries become association lists with python
`dict.update` semantics, and the HTTP layer becomes an explicit server
function from call index, path and request data to an optional response
(`none` standing for a transport-level connection failure).
-/

set_option autoImplicit false

namespace Aspace

/-- A JSON document as parsed by `response.json()`.  Python keeps `bool` and
`int` distinct constructors here because a JSON `true` and a JSON `1` are
different wire values even though `isinstance(True, int)` holds in python. -/
inductive JsonValue where
  | null
  | bool (b : Bool)
  | int (n : Int)
  | str (s : String)
  | list (items : List JsonValue)
  | obj (fields : List (String × JsonValue))

/-- The python exceptions that can escape the functions under study.
`ConnectionError` is the module-level custom class defined in
`archivesspace.py` (which shadows the builtin); `RequestsConnectionError` is
`requests.exceptions.ConnectionError`, a different class that the module-level
`except ConnectionError:` clause does not catch.  `KeyError` and `TypeError`
are the python builtins.  `SystemExit` models `exit(code)`. -/
inductive PyExc where
  | ConnectionError
  | BadRequestType
  | NotPaginated
  | AspaceBadRequest
  | AspaceForbidden
  | AspaceNotFound
  | AspaceError
  | KeyError (key : String)
  | TypeError
  | AttributeError
  | RequestsConnectionError
  | SystemExit (code : Nat)
  deriving DecidableEq

/-- Request data: a python `dict` of string keys, kept as an ordered
association list (python dicts preserve insertion order). -/
abbrev Dict := List (String × JsonValue)

/-- Python `d[k] = v` on a dict: replace the value at the first occurrence of
`k`, keeping its position, or append `(k, v)` when `k` is absent. -/
def dictSet : Dict → String → JsonValue → Dict
  | [], k, v => [(k, v)]
  | (k1, v1) :: rest, k, v =>
    if k1 = k then (k1, v) :: rest else (k1, v1) :: dictSet rest k v

/-- Python `d.update(e)`: assign each key/value pair of `e` into `d` in
`e`'s iteration order. -/
def dictUpdate (d : Dict) (e : Dict) : Dict :=
  e.foldl (fun acc p => dictSet acc p.1 p.2) d

/-- `_unionRequestData(defaultRequestData, newRequestData)`: build a fresh
dict, `update` it with the defaults, then `update` it with the passed data
(the `try: passedData = newRequestData except: pass` in the source always
succeeds, so `passedData` is just `newRequestData`). -/
def _unionRequestData (defaultRequestData : Dict) (newRequestData : Dict) : Dict :=
  dictUpdate (dictUpdate [] defaultRequestData) newRequestData

/-- The `aspy.py` variant of `_unionRequestData` receives the caller kwargs
and extracts `kwargs['data']`; when the key is missing the `except: pass`
leaves `passedData = ""` and `dict.update("")` iterates the empty string,
which is a no-op, so an absent `data` kwarg behaves as the empty dict. -/
def aspyUnionRequestData (defaultData : Dict) (kwargsData : Option Dict) : Dict :=
  dictUpdate (dictUpdate [] defaultData) (kwargsData.getD [])

/-- An HTTP response as seen by the client: the status code and the JSON
body that `response.json()` would parse. -/
structure HttpResponse where
  status_code : Nat
  body : JsonValue

/-- `checkStatusCodes(response)`: branch on the status code in the source's
order (403, 400, 404, 500, 200, otherwise).  The exceptions are raised bare —
the status code and body are only logged, never attached — and the final
`else` branch raises the very same `AspaceError` class as the 500 branch. -/
def checkStatusCodes (response : HttpResponse) : Except PyExc JsonValue :=
  if response.status_code = 403 then Except.error PyExc.AspaceForbidden
  else if response.status_code = 400 then Except.error PyExc.AspaceBadRequest
  else if response.status_code = 404 then Except.error PyExc.AspaceNotFound
  else if response.status_code = 500 then Except.error PyExc.AspaceError
  else if response.status_code = 200 then Except.ok response.body
  else Except.error PyExc.AspaceError

/-- The exception class `checkStatusCodes` raises for a non-200 status. -/
def excOfStatus (status : Nat) : PyExc :=
  if status = 403 then PyExc.AspaceForbidden
  else if status = 400 then PyExc.AspaceBadRequest
  else if status = 404 then PyExc.AspaceNotFound
  else PyExc.AspaceError

/-- Python subscript `v[k]` on a parsed JSON value with a string key:
a field lookup on an object, `KeyError` when the field is absent,
`TypeError` when the value is not an object. -/
def jsonGetKey (v : JsonValue) (k : String) : Except PyExc JsonValue :=
  match v with
  | JsonValue.obj fields =>
    match fields.lookup k with
    | some x => Except.ok x
    | none => Except.error (PyExc.KeyError k)
  | _ => Except.error (PyExc.TypeError)

/-- `isinstance(item, int)` in python: `True`/`False` are instances of `int`
because `bool` is a subclass of `int`, so the check accepts both JSON
integers and JSON booleans. -/
def isinstanceInt : JsonValue → Bool
  | JsonValue.int _ => true
  | JsonValue.bool _ => true
  | _ => false

/-- Python iteration `for item in v` over a parsed JSON value: a list yields
its items, a string yields its one-character substrings, an object yields its
keys, and the remaining values are not iterable (`TypeError`). -/
def pyIter : JsonValue → Except PyExc (List JsonValue)
  | JsonValue.list items => Except.ok items
  | JsonValue.str s => Except.ok (s.toList.map fun c => JsonValue.str (String.mk [c]))
  | JsonValue.obj fields => Except.ok (fields.map fun p => JsonValue.str p.1)
  | _ => Except.error PyExc.TypeError

/-- Python `fullSet.extend(elts)`: `fullSet` must be a list (otherwise the
attribute lookup `.extend` fails), and `elts` must be iterable. -/
def listExtend (fullSet : JsonValue) (elts : JsonValue) : Except PyExc JsonValue :=
  match fullSet with
  | JsonValue.list xs =>
    match pyIter elts with
    | Except.ok ys => Except.ok (JsonValue.list (xs ++ ys))
    | Except.error e => Except.error e
  | _ => Except.error PyExc.AttributeError

/-- Python `range(a, b)` as the list `[a, a+1, ..., b-1]` (empty when
`b <= a`). -/
def pyRange (a b : Int) : List Int :=
  (List.range (b - a).toNat).map fun i => a + Int.ofNat i

/-- The server side of the embedding: a function from the index of the call
(0 for the first request the client issues, 1 for the second, ...), the
request path and the request data to a response; `none` models a
transport-level failure (`requests.exceptions.ConnectionError`).  Indexing by
the call counter lets one server answer successive identical requests
differently, which is what exercises mid-pagination failures. -/
def Server : Type :=
  Nat → String → Dict → Option HttpResponse

/-- `requestGet(path, requestData)` = `_request(path, 'get', data)`: issue the
GET; a transport failure is caught and re-raised as the module's custom
`ConnectionError`; otherwise the response goes through `checkStatusCodes`. -/
def requestGet (srv : Server) (k : Nat) (path : String) (requestData : Dict) :
    Except PyExc JsonValue :=
  match srv k path requestData with
  | none => Except.error PyExc.ConnectionError
  | some r => checkStatusCodes r

/-- `requestPost(path, requestData)` = `_request(path, 'post', data)`: same
transport and status handling as `requestGet` (the body is serialized with
`json.dumps` before sending, which does not change the status handling). -/
def requestPost (srv : Server) (k : Nat) (path : String) (requestData : Dict) :
    Except PyExc JsonValue :=
  match srv k path requestData with
  | none => Except.error PyExc.ConnectionError
  | some r => checkStatusCodes r

/-- The `for page in range(1, numPages)` loop of
`ArchivesSpace.pagedRequestGet` in `archivesspace.py`.  Each iteration
computes `data = _unionRequestData({"page": str(page)}, requestData)` but
then issues `self.requestGet(path, requestData=requestData)`, i.e. the merged
per-page data is discarded and the unchanged first-page `requestData` is sent
again.  The accumulator also returns the trace of request dicts issued so
far; `k` is the call counter. -/
def pagedLoop (srv : Server) (path : String) (requestData : Dict) :
    List Int → JsonValue → List Dict → Nat → List Dict × Except PyExc JsonValue
  | [], fullSet, trace, _k => (trace, Except.ok fullSet)
  | page :: rest, fullSet, trace, k =>
    let _data := _unionRequestData [("page", JsonValue.str (toString page))] requestData
    match requestGet srv k path requestData with
    | Except.error e => (trace ++ [requestData], Except.error e)
    | Except.ok response =>
      match jsonGetKey response "results" with
      | Except.error e => (trace ++ [requestData], Except.error e)
      | Except.ok results =>
        match listExtend fullSet results with
        | Except.error e => (trace ++ [requestData], Except.error e)
        | Except.ok newFull =>
          pagedLoop srv path requestData rest newFull (trace ++ [requestData]) (k + 1)

/-- `ArchivesSpace.pagedRequestGet(path, requestData)` from
`archivesspace.py`, instrumented with the trace of request dicts it issues.
It merges `{"page": "1"}` under the caller's data, issues the first GET,
takes `response['results']` (a missing key is converted to `NotPaginated`),
reads `response['last_page']` (a missing key escapes as a raw `KeyError`
because this subscript is outside the `try`), and then loops over
`range(1, last_page)`. -/
def pagedRequestGet (srv : Server) (path : String) (requestData0 : Dict) :
    List Dict × Except PyExc JsonValue :=
  let requestData := _unionRequestData [("page", JsonValue.str "1")] requestData0
  match requestGet srv 0 path requestData with
  | Except.error e => ([requestData], Except.error e)
  | Except.ok response =>
    match jsonGetKey response "results" with
    | Except.error (PyExc.KeyError _) => ([requestData], Except.error PyExc.NotPaginated)
    | Except.error e => ([requestData], Except.error e)
    | Except.ok fullSet0 =>
      match jsonGetKey response "last_page" with
      | Except.error e => ([requestData], Except.error e)
      | Except.ok (JsonValue.int numPages) =>
        pagedLoop srv path requestData (pyRange 1 numPages) fullSet0 [requestData] 1
      | Except.ok _ => ([requestData], Except.error PyExc.TypeError)

/-- The page loop of the `aspy.py` variant of `pagedRequestGet`: it does send
the freshly merged `data` of each iteration, but the loop still runs over
`range(1, numPages)`, so it requests pages `1 .. numPages - 1`. -/
def aspyPagedLoop (srv : Server) (path : String) (kwargsData : Option Dict) :
    List Int → JsonValue → List Dict → Nat → List Dict × Except PyExc JsonValue
  | [], fullSet, trace, _k => (trace, Except.ok fullSet)
  | page :: rest, fullSet, trace, k =>
    let data := aspyUnionRequestData [("page", JsonValue.str (toString page))] kwargsData
    match requestGet srv k path data with
    | Except.error e => (trace ++ [data], Except.error e)
    | Except.ok response =>
      match jsonGetKey response "results" with
      | Except.error e => (trace ++ [data], Except.error e)
      | Except.ok results =>
        match listExtend fullSet results with
        | Except.error e => (trace ++ [data], Except.error e)
        | Except.ok newFull =>
          aspyPagedLoop srv path kwargsData rest newFull (trace ++ [data]) (k + 1)

/-- `ArchivesSpace.pagedRequestGet(path, **kwargs)` from `aspy.py`,
instrumented with the trace of request dicts it issues.  Differences from the
`archivesspace.py` version: the caller data arrives as `kwargs['data']`, the
guard around `response['results']` is `except Exception` (so a non-object
response also becomes `NotPaginated`), and the loop sends each iteration's
merged `data`. -/
def aspyPagedRequestGet (srv : Server) (path : String) (kwargsData : Option Dict) :
    List Dict × Except PyExc JsonValue :=
  let data := aspyUnionRequestData [("page", JsonValue.str "1")] kwargsData
  match requestGet srv 0 path data with
  | Except.error e => ([data], Except.error e)
  | Except.ok response =>
    match jsonGetKey response "results" with
    | Except.error _ => ([data], Except.error PyExc.NotPaginated)
    | Except.ok fullSet0 =>
      match jsonGetKey response "last_page" with
      | Except.error e => ([data], Except.error e)
      | Except.ok (JsonValue.int numPages) =>
        aspyPagedLoop srv path kwargsData (pyRange 1 numPages) fullSet0 [data] 1
      | Except.ok _ => ([data], Except.error PyExc.TypeError)

/-- `ArchivesSpace.allIdsRequestGet(path)`, instrumented with the trace of
request dicts it issues: one GET with `requestData={"all_ids": True}`, then
`all(isinstance(item, int) for item in response)` decides between returning
the response unchanged and raising `NotPaginated`. -/
def allIdsRequestGet (srv : Server) (path : String) :
    List Dict × Except PyExc JsonValue :=
  let d : Dict := [("all_ids", JsonValue.bool true)]
  match requestGet srv 0 path d with
  | Except.error e => ([d], Except.error e)
  | Except.ok response =>
    match pyIter response with
    | Except.error e => ([d], Except.error e)
    | Except.ok items =>
      if items.all isinstanceInt then ([d], Except.ok response)
      else ([d], Except.error PyExc.NotPaginated)

/-- The client state `connect()` establishes: the `requests.Session` headers
(after `self.session.headers.update(...)`), the parsed login response stored
in `self.connection`, and `self.sessionId = self.connection['session']`. -/
structure LoginState where
  headers : Dict
  connection : JsonValue
  sessionId : JsonValue

/-- `ArchivesSpace.connect()`.  `self.session = requests.Session()` creates a
fresh session whose default headers are `baseHeaders`; `loginResp` is what
`self.session.post(host + "/users/<username>/login", ...)` observes, `none`
standing for a transport failure.  A transport failure raises
`requests.exceptions.ConnectionError`, which the `except ConnectionError:`
clause does NOT catch (that name resolves to the module's own shadowing
class), so the `exit(1)` branch only fires on the module exception, which
nothing inside the `try` can raise.  On a 200 the login JSON is stored and
the session token is copied into the `X-ArchivesSpace-Session` header. -/
def connect (baseHeaders : Dict) (loginResp : Option HttpResponse) :
    Except PyExc LoginState :=
  let attempt : Except PyExc JsonValue :=
    match loginResp with
    | none => Except.error PyExc.RequestsConnectionError
    | some r => checkStatusCodes r
  match attempt with
  | Except.error PyExc.ConnectionError => Except.error (PyExc.SystemExit 1)
  | Except.error e => Except.error e
  | Except.ok jsonResponse =>
    match jsonGetKey jsonResponse "session" with
    | Except.error e => Except.error e
    | Except.ok tok =>
      Except.ok
        { headers := dictUpdate baseHeaders [("X-ArchivesSpace-Session", tok)]
          connection := jsonResponse
          sessionId := tok }

/-- An outgoing HTTP request as handed to the transport: the session headers
it carries, the path and the request data. -/
structure HttpRequest where
  headers : Dict
  path : String
  data : Dict

/-- The wire request `self.session.get(self._getHost() + path, data = data)`
issues: a `requests.Session` attaches its stored `session.headers` to every
request it sends, and neither `requestGet` nor `_request` modifies those
headers. -/
def buildGetRequest (st : LoginState) (path : String) (data : Dict) : HttpRequest :=
  { headers := st.headers, path := path, data := data }

/-- The wire request `self.session.post(self._getHost() + path, data = data)`
issues; like `buildGetRequest`, the session headers ride along unchanged. -/
def buildPostRequest (st : LoginState) (path : String) (data : Dict) : HttpRequest :=
  { headers := st.headers, path := path, data := data }

/-- A heap of python dict objects, for stating which dicts an operation
mutates: the address of a dict is its index in the list. -/
abbrev DictHeap := List Dict

/-- `_unionRequestData` as it acts on the heap of dict objects: `data = {}`
allocates a fresh dict at a fresh address, and the two `data.update(...)`
calls mutate only that fresh dict; the dicts at `dAddr` (the defaults) and
`oAddr` (the caller's dict) are only read.  Returns the new heap and the
address of the result. -/
def heapUnionRequestData (h : DictHeap) (dAddr oAddr : Nat) : DictHeap × Nat :=
  let dataAddr := List.length h
  let h1 := h ++ [([] : Dict)]
  let dflt := h1.getD dAddr []
  let passed := h1.getD oAddr []
  let h2 := h1.set dataAddr (dictUpdate (dictUpdate [] dflt) passed)
  (h2, dataAddr)

/-! ### Concrete servers used to exercise the client -/

/-- Page 1 of a three-page listing with two results per page. -/
def page1Body : JsonValue :=
  JsonValue.obj [("results", JsonValue.list [JsonValue.int 1, JsonValue.int 2]),
                 ("last_page", JsonValue.int 3)]

/-- Page 2 of the three-page listing. -/
def page2Body : JsonValue :=
  JsonValue.obj [("results", JsonValue.list [JsonValue.int 3, JsonValue.int 4]),
                 ("last_page", JsonValue.int 3)]

/-- Page 3 of the three-page listing. -/
def page3Body : JsonValue :=
  JsonValue.obj [("results", JsonValue.list [JsonValue.int 5, JsonValue.int 6]),
                 ("last_page", JsonValue.int 3)]

/-- A well-behaved paginated server: `last_page = 3`, two results per page,
page selection via the `page` parameter. -/
def srv3 : Server := fun _k _path d =>
  match d.lookup "page" with
  | some (JsonValue.str "1") => some ⟨200, page1Body⟩
  | some (JsonValue.str "2") => some ⟨200, page2Body⟩
  | some (JsonValue.str "3") => some ⟨200, page3Body⟩
  | _ => some ⟨404, JsonValue.null⟩

/-- A server whose paginated response has `results` but no `last_page`. -/
def srvNoLastPage : Server := fun _k _path _d =>
  some ⟨200, JsonValue.obj [("results", JsonValue.list [])]⟩

/-- A server whose response is an object with neither `results` nor
`last_page`. -/
def srvMissingFields : Server := fun _k _path _d =>
  some ⟨200, JsonValue.obj []⟩

/-- A server answering `allIdsRequestGet` with a list containing a boolean. -/
def srvBoolIds : Server := fun _k _path _d =>
  some ⟨200, JsonValue.list [JsonValue.bool true]⟩

/-- A server answering `allIdsRequestGet` with a list containing a string. -/
def srvMixedIds : Server := fun _k _path _d =>
  some ⟨200, JsonValue.list [JsonValue.int 1, JsonValue.str "x", JsonValue.int 3]⟩

/-- A server answering `allIdsRequestGet` with integers and booleans mixed. -/
def srvBoolIntIds : Server := fun _k _path _d =>
  some ⟨200, JsonValue.list [JsonValue.bool true, JsonValue.int 2]⟩

/-- A paginated server whose first page is fine (`last_page = 3`) and whose
second request fails with a 500. -/
def srvFailSecond : Server := fun k _path _d =>
  if k = 0 then some ⟨200, page1Body⟩ else some ⟨500, JsonValue.null⟩

/-! ### Dictionary lemmas -/

theorem lookup_dictSet_self (d : Dict) (k : String) (v : JsonValue) :
    (dictSet d k v).lookup k = some v := by
  induction d with
  | nil => simp [dictSet, List.lookup_cons]
  | cons p rest ih =>
    obtain ⟨k1, v1⟩ := p
    by_cases h : k1 = k
    · subst h
      simp [dictSet, List.lookup_cons]
    · have hb : (k == k1) = false := beq_false_of_ne (Ne.symm h)
      simp [dictSet, h, List.lookup_cons, hb, ih]

theorem lookup_dictSet_ne (d : Dict) (k k' : String) (v : JsonValue) (h : k' ≠ k) :
    (dictSet d k v).lookup k' = d.lookup k' := by
  have hb : (k' == k) = false := beq_false_of_ne h
  induction d with
  | nil => simp [dictSet, List.lookup_cons, hb]
  | cons p rest ih =>
    obtain ⟨k1, v1⟩ := p
    by_cases h1 : k1 = k
    · subst h1
      simp [dictSet, List.lookup_cons, hb]
    · by_cases h2 : k' = k1
      · subst h2
        simp [dictSet, h1, List.lookup_cons]
      · have hb2 : (k' == k1) = false := beq_false_of_ne h2
        simp [dictSet, h1, List.lookup_cons, hb2, ih]

theorem mem_keys_of_lookup_some (d : Dict) (k : String) (v : JsonValue)
    (h : d.lookup k = some v) : k ∈ d.map Prod.fst := by
  induction d with
  | nil => simp at h
  | cons p rest ih =>
    obtain ⟨k1, v1⟩ := p
    by_cases h1 : k = k1
    · subst h1
      simp
    · have hb : (k == k1) = false := beq_false_of_ne h1
      rw [List.lookup_cons, hb] at h
      simp [ih h]

theorem lookup_eq_none_of_not_mem_keys (d : Dict) (k : String)
    (h : k ∉ d.map Prod.fst) : d.lookup k = none := by
  induction d with
  | nil => simp
  | cons p rest ih =>
    obtain ⟨k1, v1⟩ := p
    simp only [List.map_cons, List.mem_cons, not_or] at h
    have hb : (k == k1) = false := beq_false_of_ne h.1
    rw [List.lookup_cons, hb]
    exact ih h.2

theorem keys_dictSet (d : Dict) (k : String) (v : JsonValue) :
    (dictSet d k v).map Prod.fst =
      if k ∈ d.map Prod.fst then d.map Prod.fst else d.map Prod.fst ++ [k] := by
  induction d with
  | nil => simp [dictSet]
  | cons p rest ih =>
    obtain ⟨k1, v1⟩ := p
    by_cases h1 : k1 = k
    · subst h1
      simp [dictSet]
    · by_cases h2 : k ∈ rest.map Prod.fst
      · simp [dictSet, h1, ih, h2, Ne.symm h1]
      · simp [dictSet, h1, ih, h2, Ne.symm h1]

theorem dictUpdate_cons (d : Dict) (k : String) (v : JsonValue) (e : Dict) :
    dictUpdate d ((k, v) :: e) = dictUpdate (dictSet d k v) e := rfl

theorem lookup_dictUpdate_of_none (e : Dict) (d : Dict) (k : String)
    (h : e.lookup k = none) : (dictUpdate d e).lookup k = d.lookup k := by
  induction e generalizing d with
  | nil => rfl
  | cons p rest ih =>
    obtain ⟨k1, v1⟩ := p
    by_cases h1 : k = k1
    · subst h1
      simp [List.lookup_cons] at h
    · have hb : (k == k1) = false := beq_false_of_ne h1
      rw [List.lookup_cons, hb] at h
      rw [dictUpdate_cons, ih _ h, lookup_dictSet_ne _ _ _ _ h1]

theorem lookup_dictUpdate_of_some (e : Dict) : ∀ (d : Dict) (k : String)
    (v : JsonValue), (e.map Prod.fst).Nodup → e.lookup k = some v →
    (dictUpdate d e).lookup k = some v := by
  induction e with
  | nil =>
    intro d k v _ h
    simp at h
  | cons p rest ih =>
    obtain ⟨k1, v1⟩ := p
    intro d k v hE h
    simp only [List.map_cons, List.nodup_cons] at hE
    by_cases h1 : k = k1
    · subst h1
      simp [List.lookup_cons] at h
      subst h
      rw [dictUpdate_cons,
        lookup_dictUpdate_of_none rest _ k (lookup_eq_none_of_not_mem_keys _ _ hE.1),
        lookup_dictSet_self]
    · have hb : (k == k1) = false := beq_false_of_ne h1
      rw [List.lookup_cons, hb] at h
      rw [dictUpdate_cons, ih _ k v hE.2 h]

theorem dictSet_of_not_mem (d : Dict) (k : String) (v : JsonValue)
    (h : k ∉ d.map Prod.fst) : dictSet d k v = d ++ [(k, v)] := by
  induction d with
  | nil => simp [dictSet]
  | cons p rest ih =>
    obtain ⟨k1, v1⟩ := p
    simp only [List.map_cons, List.mem_cons, not_or] at h
    simp [dictSet, Ne.symm h.1, ih h.2]

theorem dictUpdate_of_disjoint (e : Dict) : ∀ (d : Dict),
    (e.map Prod.fst).Nodup →
    (∀ k ∈ e.map Prod.fst, k ∉ d.map Prod.fst) →
    dictUpdate d e = d ++ e := by
  induction e with
  | nil =>
    intro d _ _
    simp [dictUpdate]
  | cons p rest ih =>
    obtain ⟨k1, v1⟩ := p
    intro d hE hdisj
    simp only [List.map_cons, List.nodup_cons] at hE
    rw [dictUpdate_cons, dictSet_of_not_mem _ _ _ (hdisj k1 (by simp)),
      ih (d ++ [(k1, v1)]) hE.2 ?_]
    · simp
    · intro k hk
      have hmem : k ∉ d.map Prod.fst := hdisj k (by simp [hk])
      have hne : k ≠ k1 := fun hcontra => hE.1 (hcontra ▸ hk)
      simp [hmem, hne]

theorem dictUpdate_nil (e : Dict) (hE : (e.map Prod.fst).Nodup) :
    dictUpdate [] e = e := by
  rw [dictUpdate_of_disjoint e [] hE (by simp)]
  rfl

theorem keys_dictUpdate (e : Dict) : ∀ (d : Dict), (e.map Prod.fst).Nodup →
    (dictUpdate d e).map Prod.fst =
      d.map Prod.fst
        ++ (e.map Prod.fst).filter (fun x => decide (x ∉ d.map Prod.fst)) := by
  induction e with
  | nil =>
    intro d _
    simp [dictUpdate]
  | cons p rest ih =>
    obtain ⟨k1, v1⟩ := p
    intro d hE
    simp only [List.map_cons, List.nodup_cons] at hE
    rw [dictUpdate_cons, ih _ hE.2, keys_dictSet]
    by_cases h1 : k1 ∈ d.map Prod.fst
    · rw [if_pos h1]
      simp [List.filter_cons, h1]
    · rw [if_neg h1]
      have hfc : (rest.map Prod.fst).filter
            (fun x => decide (x ∉ (d.map Prod.fst ++ [k1]))) =
          (rest.map Prod.fst).filter (fun x => decide (x ∉ d.map Prod.fst)) := by
        apply List.filter_congr
        intro x hx
        have hxk : x ≠ k1 := fun hcontra => hE.1 (hcontra ▸ hx)
        simp [hxk]
      rw [hfc]
      simp [List.filter_cons, h1]

/-! ### Status-code helpers -/

theorem checkStatusCodes_eq (r : HttpResponse) :
    checkStatusCodes r =
      if r.status_code = 200 then Except.ok r.body
      else Except.error (excOfStatus r.status_code) := by
  unfold checkStatusCodes excOfStatus
  split_ifs <;> first | rfl | omega

theorem checkStatusCodes_200 (b : JsonValue) :
    checkStatusCodes ⟨200, b⟩ = Except.ok b := rfl

theorem checkStatusCodes_ne200 (s : Nat) (b : JsonValue) (h : s ≠ 200) :
    checkStatusCodes ⟨s, b⟩ = Except.error (excOfStatus s) := by
  rw [checkStatusCodes_eq]
  simp [h]

theorem excOfStatus_ne_connectionError (s : Nat) :
    excOfStatus s ≠ PyExc.ConnectionError := by
  unfold excOfStatus
  split_ifs <;> simp

theorem excOfStatus_ne_systemExit (s : Nat) (c : Nat) :
    excOfStatus s ≠ PyExc.SystemExit c := by
  unfold excOfStatus
  split_ifs <;> simp

/-! ### Claim theorems: status-code mapping -/

/-- Claim C3, counterexample: status 418 raises the very same `AspaceError`
class as status 500 (no distinct unexpected-status type exists), and the
exception raised for a 400 is identical whatever the response body was, so
the failure carries neither the status code nor the body. -/
theorem checkStatusCodes_shared_error_no_payload :
    checkStatusCodes ⟨418, JsonValue.str "teapot"⟩ = Except.error PyExc.AspaceError ∧
    checkStatusCodes ⟨500, JsonValue.str "server-oops"⟩ = Except.error PyExc.AspaceError ∧
    checkStatusCodes ⟨400, JsonValue.str "body-one"⟩ =
      checkStatusCodes ⟨400, JsonValue.str "body-two"⟩ :=
  ⟨rfl, rfl, rfl⟩

/-- Claim C3, amended: `checkStatusCodes` maps 200 to the parsed body,
400 to `AspaceBadRequest`, 403 to `AspaceForbidden`, 404 to `AspaceNotFound`,
and both 500 and every other non-200 status to the one shared `AspaceError`
type; the raised exceptions are bare, carrying neither status nor body
(the body is only logged). -/
theorem checkStatusCodes_status_mapping (r : HttpResponse) :
    checkStatusCodes r =
      if r.status_code = 200 then Except.ok r.body
      else Except.error (excOfStatus r.status_code) :=
  checkStatusCodes_eq r

/-! ### Claim theorems: parameter merge -/

/-- Claim C4: for mappings `D` and `O` the merge keeps every key of `D` in
`D`'s order followed by `O`'s newly introduced keys in `O`'s order, `O` wins
on key collisions, keys only in `D` keep `D`'s value, and on disjoint keys
the merge is commutative in the sense of python `==` on dicts, i.e. as a
key-to-value mapping. -/
theorem unionRequestData_merge_spec (D O : Dict)
    (hD : (D.map Prod.fst).Nodup) (hO : (O.map Prod.fst).Nodup) :
    ((_unionRequestData D O).map Prod.fst =
      D.map Prod.fst ++ (O.map Prod.fst).filter (fun x => decide (x ∉ D.map Prod.fst)))
    ∧ (∀ (k : String) (v : JsonValue), O.lookup k = some v →
        (_unionRequestData D O).lookup k = some v)
    ∧ (∀ k : String, O.lookup k = none →
        (_unionRequestData D O).lookup k = D.lookup k)
    ∧ ((∀ k ∈ D.map Prod.fst, k ∉ O.map Prod.fst) →
        ∀ k : String, (_unionRequestData D O).lookup k = (_unionRequestData O D).lookup k) := by
  have hDD : dictUpdate [] D = D := dictUpdate_nil D hD
  have hOO : dictUpdate [] O = O := dictUpdate_nil O hO
  unfold _unionRequestData
  rw [hDD, hOO]
  refine ⟨keys_dictUpdate O D hO, ?_, ?_, ?_⟩
  · intro k v h
    exact lookup_dictUpdate_of_some O D k v hO h
  · intro k h
    exact lookup_dictUpdate_of_none O D k h
  · intro hdisj k
    cases hOk : O.lookup k with
    | some v =>
      rw [lookup_dictUpdate_of_some O D k v hO hOk]
      have hDk : D.lookup k = none := by
        cases hDk : D.lookup k with
        | none => rfl
        | some w =>
          have hmemD : k ∈ D.map Prod.fst := mem_keys_of_lookup_some D k w hDk
          have hmemO : k ∈ O.map Prod.fst := mem_keys_of_lookup_some O k v hOk
          exact absurd hmemO (hdisj k hmemD)
      rw [lookup_dictUpdate_of_none D O k hDk, hOk]
    | none =>
      rw [lookup_dictUpdate_of_none O D k hOk]
      cases hDk : D.lookup k with
      | some w => rw [lookup_dictUpdate_of_some D O k w hD hDk]
      | none => rw [lookup_dictUpdate_of_none D O k hDk, hOk]

/-- Claim C4, witness: the merge of `a: 1` into `b: 2` at concrete inputs. -/
theorem unionRequestData_merge_spec_witness :
    (([("a", JsonValue.int 1)].map Prod.fst).Nodup ∧
      ([("b", JsonValue.int 2)].map Prod.fst).Nodup) ∧
    (_unionRequestData [("a", JsonValue.int 1)] [("b", JsonValue.int 2)]).lookup "b" =
      some (JsonValue.int 2) :=
  ⟨⟨by decide, by decide⟩,
    (unionRequestData_merge_spec [("a", JsonValue.int 1)] [("b", JsonValue.int 2)]
      (by decide) (by decide)).2.1 "b" (JsonValue.int 2) rfl⟩

/-! ### Claim theorems: merge does not mutate its inputs -/

/-- Claim C9: on the heap of dict objects, `_unionRequestData` allocates a
fresh dict (at the fresh address `h.length`) and leaves the dicts at the two
input addresses untouched, so in particular a caller's params dict passed to
`pagedRequestGet` is never mutated by the merge. -/
theorem heapUnionRequestData_frame (h : DictHeap) (dAddr oAddr : Nat)
    (hd : dAddr < h.length) (ho : oAddr < h.length) :
    (heapUnionRequestData h dAddr oAddr).1[dAddr]? = h[dAddr]? ∧
    (heapUnionRequestData h dAddr oAddr).1[oAddr]? = h[oAddr]? ∧
    (heapUnionRequestData h dAddr oAddr).2 = h.length ∧
    (heapUnionRequestData h dAddr oAddr).1[(heapUnionRequestData h dAddr oAddr).2]? =
      some (_unionRequestData (h.getD dAddr []) (h.getD oAddr [])) := by
  have hgetd : ∀ a : Nat, a < h.length → (h ++ [([] : Dict)]).getD a [] = h.getD a [] := by
    intro a ha
    rw [List.getD_eq_getElem?_getD, List.getD_eq_getElem?_getD,
      List.getElem?_append_left ha]
  have hset : ∀ a : Nat, a < h.length →
      (heapUnionRequestData h dAddr oAddr).1[a]? = h[a]? := by
    intro a ha
    show ((h ++ [([] : Dict)]).set h.length _)[a]? = h[a]?
    rw [List.getElem?_set_ne (Nat.ne_of_gt ha), List.getElem?_append_left ha]
  refine ⟨hset dAddr hd, hset oAddr ho, rfl, ?_⟩
  show ((h ++ [([] : Dict)]).set h.length
      (dictUpdate (dictUpdate [] ((h ++ [([] : Dict)]).getD dAddr []))
        ((h ++ [([] : Dict)]).getD oAddr [])))[h.length]? = _
  rw [List.getElem?_set_self (by simp), hgetd dAddr hd, hgetd oAddr ho]
  rfl

/-- Claim C9, witness: a two-dict heap; merging the dicts at addresses 0 and
1 allocates the result at address 2 and leaves both inputs in place. -/
theorem heapUnionRequestData_frame_witness :
    ((0 : Nat) < ([[("x", JsonValue.int 1)], [("y", JsonValue.int 2)]] : DictHeap).length ∧
      (1 : Nat) < ([[("x", JsonValue.int 1)], [("y", JsonValue.int 2)]] : DictHeap).length) ∧
    (heapUnionRequestData [[("x", JsonValue.int 1)], [("y", JsonValue.int 2)]] 0 1).1[0]? =
      ([[("x", JsonValue.int 1)], [("y", JsonValue.int 2)]] : DictHeap)[0]? :=
  ⟨⟨by decide, by decide⟩,
    (heapUnionRequestData_frame [[("x", JsonValue.int 1)], [("y", JsonValue.int 2)]] 0 1
      (by decide) (by decide)).1⟩

/-! ### Connect helpers -/

theorem connect_none_eq (bh : Dict) :
    connect bh none = Except.error PyExc.RequestsConnectionError := rfl

theorem connect_some_ne200 (bh : Dict) (r : HttpResponse) (h : r.status_code ≠ 200) :
    connect bh (some r) = Except.error (excOfStatus r.status_code) := by
  simp only [connect]
  rw [checkStatusCodes_eq, if_neg h]
  have hne : excOfStatus r.status_code ≠ PyExc.ConnectionError :=
    excOfStatus_ne_connectionError r.status_code
  cases he : excOfStatus r.status_code <;> simp_all

theorem jsonGetKey_ne_systemExit (v : JsonValue) (k : String) (c : Nat) :
    jsonGetKey v k ≠ Except.error (PyExc.SystemExit c) := by
  unfold jsonGetKey
  cases v <;> simp
  cases List.lookup k _ <;> simp

theorem connect_some_200 (bh : Dict) (r : HttpResponse)
    (fields : List (String × JsonValue)) (tok : JsonValue)
    (h200 : r.status_code = 200) (hbody : r.body = JsonValue.obj fields)
    (htok : fields.lookup "session" = some tok) :
    connect bh (some r) =
      Except.ok
        { headers := dictUpdate bh [("X-ArchivesSpace-Session", tok)]
          connection := r.body
          sessionId := tok } := by
  simp only [connect]
  rw [checkStatusCodes_eq, if_pos h200, hbody]
  simp [jsonGetKey, htok]

theorem connect_never_exits (bh : Dict) (lr : Option HttpResponse) :
    connect bh lr ≠ Except.error (PyExc.SystemExit 1) := by
  cases lr with
  | none =>
    rw [connect_none_eq]
    simp
  | some r =>
    by_cases h200 : r.status_code = 200
    · simp only [connect]
      rw [checkStatusCodes_eq, if_pos h200]
      cases hjk : jsonGetKey r.body "session" with
      | error e =>
        have hne := jsonGetKey_ne_systemExit r.body "session" 1
        rw [hjk] at hne
        simp [hjk]
        intro hcontra
        exact hne (by rw [hcontra])
      | ok tok => simp [hjk]
    · rw [connect_some_ne200 bh r h200]
      simp [excOfStatus_ne_systemExit r.status_code 1]

/-! ### Claim theorems: connect failures -/

/-- Claim C5, counterexample: a transport failure during `connect()`
surfaces as the requests library exception, which is a different class from
the module's own `ConnectionError` (the spec's `ConnectionFailed`), and a
non-success login status surfaces as the generic status-specific exception
(403 gives `AspaceForbidden`, 500 gives `AspaceError`) — there is no single
authentication-failure type. -/
theorem connect_failure_types_counterexample :
    connect [] none = Except.error PyExc.RequestsConnectionError ∧
    PyExc.RequestsConnectionError ≠ PyExc.ConnectionError ∧
    connect [] (some ⟨403, JsonValue.null⟩) = Except.error PyExc.AspaceForbidden ∧
    connect [] (some ⟨500, JsonValue.null⟩) = Except.error PyExc.AspaceError :=
  ⟨rfl, by decide, rfl, rfl⟩

/-- Claim C5, amended: `connect()` fails with the status-specific exception
produced by `checkStatusCodes` (no dedicated authentication-failure type)
when the server returns a non-success status; a transport failure propagates
to the caller as the requests library's connection error rather than as the
module's `ConnectionError`; and the `except ConnectionError: exit(1)` branch
is unreachable, so `connect` never terminates the process. -/
theorem connect_failure_behavior (bh : Dict) :
    (∀ r : HttpResponse, r.status_code ≠ 200 →
      connect bh (some r) = Except.error (excOfStatus r.status_code)) ∧
    connect bh none = Except.error PyExc.RequestsConnectionError ∧
    (∀ lr : Option HttpResponse, connect bh lr ≠ Except.error (PyExc.SystemExit 1)) :=
  ⟨fun r h => connect_some_ne200 bh r h, connect_none_eq bh,
    fun lr => connect_never_exits bh lr⟩

/-- Claim C5, witness: the amended behavior at a concrete 404 login
response. -/
theorem connect_failure_behavior_witness :
    ((⟨404, JsonValue.null⟩ : HttpResponse).status_code ≠ 200) ∧
    connect [] (some ⟨404, JsonValue.null⟩) = Except.error PyExc.AspaceNotFound :=
  ⟨by decide, (connect_failure_behavior []).1 ⟨404, JsonValue.null⟩ (by decide)⟩

/-! ### Claim theorems: session header -/

/-- Claim C7: a successful `connect()` stores exactly the login response's
`session` token in `self.sessionId` and in the `X-ArchivesSpace-Session`
session header, every `requestGet`/`requestPost` issued through the stored
session carries that exact header value unchanged (the request path never
touches `session.headers`), and a later `connect()` replaces it with the new
login's token. -/
theorem connect_session_header_invariant (bh : Dict) (r : HttpResponse)
    (fields : List (String × JsonValue)) (tok : JsonValue)
    (h200 : r.status_code = 200) (hbody : r.body = JsonValue.obj fields)
    (htok : fields.lookup "session" = some tok) :
    ∃ st : LoginState, connect bh (some r) = Except.ok st ∧
      st.sessionId = tok ∧
      st.headers.lookup "X-ArchivesSpace-Session" = some tok ∧
      (∀ (path : String) (d : Dict),
        (buildGetRequest st path d).headers.lookup "X-ArchivesSpace-Session" = some tok ∧
        (buildPostRequest st path d).headers.lookup "X-ArchivesSpace-Session" = some tok) ∧
      (∀ (r2 : HttpResponse) (fields2 : List (String × JsonValue)) (tok2 : JsonValue),
        r2.status_code = 200 → r2.body = JsonValue.obj fields2 →
        fields2.lookup "session" = some tok2 →
        ∃ st2 : LoginState, connect bh (some r2) = Except.ok st2 ∧
          st2.headers.lookup "X-ArchivesSpace-Session" = some tok2) := by
  have hhdr : ∀ t : JsonValue,
      (dictUpdate bh [("X-ArchivesSpace-Session", t)]).lookup "X-ArchivesSpace-Session" =
        some t := by
    intro t
    show (dictSet bh "X-ArchivesSpace-Session" t).lookup "X-ArchivesSpace-Session" = some t
    exact lookup_dictSet_self bh _ t
  refine ⟨_, connect_some_200 bh r fields tok h200 hbody htok, rfl, hhdr tok,
    fun path d => ⟨hhdr tok, hhdr tok⟩, ?_⟩
  intro r2 fields2 tok2 h200b hbodyb htokb
  exact ⟨_, connect_some_200 bh r2 fields2 tok2 h200b hbodyb htokb, hhdr tok2⟩

/-- Claim C7, witness: a concrete login response carrying token `tok-1`. -/
theorem connect_session_header_invariant_witness :
    ((⟨200, JsonValue.obj [("session", JsonValue.str "tok-1")]⟩ : HttpResponse).status_code
        = 200) ∧
    (∃ st : LoginState,
      connect [] (some ⟨200, JsonValue.obj [("session", JsonValue.str "tok-1")]⟩) =
        Except.ok st ∧
      st.sessionId = JsonValue.str "tok-1" ∧
      st.headers.lookup "X-ArchivesSpace-Session" = some (JsonValue.str "tok-1")) :=
  ⟨rfl, by
    obtain ⟨st, h1, h2, h3, _⟩ :=
      connect_session_header_invariant [] ⟨200, JsonValue.obj [("session", JsonValue.str "tok-1")]⟩
        [("session", JsonValue.str "tok-1")] (JsonValue.str "tok-1") rfl rfl rfl
    exact ⟨st, h1, h2, h3⟩⟩

/-! ### Pagination -/

/-- Claim C1 (the code contradicts it): on a well-behaved server with
`last_page = 3` and two results per page, `archivesspace.py` issues three
GETs that all carry `page = "1"` (the per-page merged `data` of the loop is
computed but never sent, and the loop range is `range(1, last_page)`), so
the result is page 1's results three times over; the `aspy.py` variant sends
its merged data but still requests pages 1, 1, 2 and never page 3.  Neither
returns the six results of pages 1, 2, 3 in order. -/
theorem pagedRequestGet_refetches_first_page :
    pagedRequestGet srv3 "/subjects" [] =
      ([[("page", JsonValue.str "1")], [("page", JsonValue.str "1")],
        [("page", JsonValue.str "1")]],
        Except.ok (JsonValue.list [JsonValue.int 1, JsonValue.int 2, JsonValue.int 1,
          JsonValue.int 2, JsonValue.int 1, JsonValue.int 2])) ∧
    aspyPagedRequestGet srv3 "/subjects" none =
      ([[("page", JsonValue.str "1")], [("page", JsonValue.str "1")],
        [("page", JsonValue.str "2")]],
        Except.ok (JsonValue.list [JsonValue.int 1, JsonValue.int 2, JsonValue.int 1,
          JsonValue.int 2, JsonValue.int 3, JsonValue.int 4])) ∧
    (pagedRequestGet srv3 "/subjects" []).2 ≠
      Except.ok (JsonValue.list [JsonValue.int 1, JsonValue.int 2, JsonValue.int 3,
        JsonValue.int 4, JsonValue.int 5, JsonValue.int 6]) := by
  refine ⟨rfl, rfl, ?_⟩
  intro hcontra
  have h2 : (Except.ok (JsonValue.list [JsonValue.int 1, JsonValue.int 2, JsonValue.int 1,
        JsonValue.int 2, JsonValue.int 1, JsonValue.int 2]) : Except PyExc JsonValue) =
      Except.ok (JsonValue.list [JsonValue.int 1, JsonValue.int 2, JsonValue.int 3,
        JsonValue.int 4, JsonValue.int 5, JsonValue.int 6]) := hcontra
  simp at h2

/-- Claim C2, counterexample: a first-page response that has `results` but
lacks `last_page` makes `pagedRequestGet` raise a plain `KeyError`, not
`NotPaginated`, because `response['last_page']` sits outside the `try`. -/
theorem pagedRequestGet_missing_last_page_keyerror :
    pagedRequestGet srvNoLastPage "/x" [] =
      ([[("page", JsonValue.str "1")]], Except.error (PyExc.KeyError "last_page")) ∧
    PyExc.KeyError "last_page" ≠ PyExc.NotPaginated :=
  ⟨rfl, by decide⟩

/-- Claim C2, amended: a first-page response lacking `results` raises
`NotPaginated` and no further page request is issued (the trace has exactly
the one first-page request); a first-page response that has `results` but
lacks `last_page` also stops after that single request, but it escapes as a
raw `KeyError "last_page"` rather than `NotPaginated`. -/
theorem pagedRequestGet_missing_field_behavior (srv : Server) (path : String)
    (d0 : Dict) (fields : List (String × JsonValue))
    (h : srv 0 path (_unionRequestData [("page", JsonValue.str "1")] d0) =
      some ⟨200, JsonValue.obj fields⟩) :
    (fields.lookup "results" = none →
      pagedRequestGet srv path d0 =
        ([_unionRequestData [("page", JsonValue.str "1")] d0],
          Except.error PyExc.NotPaginated)) ∧
    (∀ rv : JsonValue, fields.lookup "results" = some rv →
      fields.lookup "last_page" = none →
      pagedRequestGet srv path d0 =
        ([_unionRequestData [("page", JsonValue.str "1")] d0],
          Except.error (PyExc.KeyError "last_page"))) := by
  constructor
  · intro hres
    simp only [pagedRequestGet, requestGet, h]
    rw [checkStatusCodes_200]
    simp [jsonGetKey, hres]
  · intro rv hres hlast
    simp only [pagedRequestGet, requestGet, h]
    rw [checkStatusCodes_200]
    simp [jsonGetKey, hres, hlast]

/-- Claim C2, witness: a server answering with an object having neither
field raises `NotPaginated` after a single request. -/
theorem pagedRequestGet_missing_field_behavior_witness :
    (srvMissingFields 0 "/x" (_unionRequestData [("page", JsonValue.str "1")] []) =
      some ⟨200, JsonValue.obj []⟩) ∧
    pagedRequestGet srvMissingFields "/x" [] =
      ([_unionRequestData [("page", JsonValue.str "1")] []],
        Except.error PyExc.NotPaginated) :=
  ⟨rfl, (pagedRequestGet_missing_field_behavior srvMissingFields "/x" [] [] rfl).1 rfl⟩

theorem length_pyRange (a b : Int) : (pyRange a b).length = (b - a).toNat := by
  unfold pyRange
  rw [List.length_map, List.length_range]

theorem pagedLoop_fail_at (srv : Server) (path : String) (rd : Dict) (k : Nat)
    (failStatus : Nat) (failBody : JsonValue)
    (hsucc : ∀ j, j < k → ∃ (flds : List (String × JsonValue)) (rs : List JsonValue),
      srv j path rd = some ⟨200, JsonValue.obj flds⟩ ∧
      flds.lookup "results" = some (JsonValue.list rs))
    (hfail : srv k path rd = some ⟨failStatus, failBody⟩)
    (hfs : failStatus ≠ 200) :
    ∀ (ps : List Int) (i : Nat) (xs : List JsonValue) (tr : List Dict),
      i ≤ k → k - i < ps.length →
      pagedLoop srv path rd ps (JsonValue.list xs) tr i =
        (tr ++ List.replicate (k - i + 1) rd, Except.error (excOfStatus failStatus)) := by
  intro ps
  induction ps with
  | nil =>
    intro i xs tr _ hlen
    simp at hlen
  | cons p rest ih =>
    intro i xs tr hik hlen
    by_cases heq : i = k
    · subst heq
      simp only [pagedLoop, requestGet, hfail]
      rw [checkStatusCodes_ne200 failStatus failBody hfs]
      simp
    · have hik2 : i < k := lt_of_le_of_ne hik heq
      obtain ⟨flds, rs, hsrv, hres⟩ := hsucc i hik2
      simp only [pagedLoop, requestGet, hsrv]
      rw [checkStatusCodes_200]
      simp only [jsonGetKey, hres, listExtend, pyIter]
      rw [ih (i + 1) (xs ++ rs) (tr ++ [rd]) hik2 ?hlen2]
      case hlen2 =>
        simp only [List.length_cons] at hlen
        omega
      have harith : k - (i + 1) + 1 = k - i := by omega
      rw [harith, List.append_assoc, List.singleton_append, List.replicate_succ]

/-- Claim C8: pages are fetched one at a time in order of the call counter,
and when the fetch of any page fails (here: the `k`-th call returns a non-200
status after `k` successful calls), the status exception propagates at once —
the trace stops at exactly `k + 1` requests, nothing is retried, and no
partial result set is returned. -/
theorem pagedRequestGet_error_propagates (srv : Server) (path : String) (d0 : Dict)
    (fields : List (String × JsonValue)) (L : Int) (k : Nat)
    (failStatus : Nat) (failBody : JsonValue) (xs0 : List JsonValue)
    (hfirst : srv 0 path (_unionRequestData [("page", JsonValue.str "1")] d0) =
      some ⟨200, JsonValue.obj fields⟩)
    (hres : fields.lookup "results" = some (JsonValue.list xs0))
    (hlast : fields.lookup "last_page" = some (JsonValue.int L))
    (hk1 : 1 ≤ k) (hkL : (k : Int) ≤ L - 1)
    (hsucc : ∀ j, 1 ≤ j → j < k →
      ∃ (flds : List (String × JsonValue)) (rs : List JsonValue),
        srv j path (_unionRequestData [("page", JsonValue.str "1")] d0) =
          some ⟨200, JsonValue.obj flds⟩ ∧
        flds.lookup "results" = some (JsonValue.list rs))
    (hfail : srv k path (_unionRequestData [("page", JsonValue.str "1")] d0) =
      some ⟨failStatus, failBody⟩)
    (hfs : failStatus ≠ 200) :
    pagedRequestGet srv path d0 =
      (List.replicate (k + 1) (_unionRequestData [("page", JsonValue.str "1")] d0),
        Except.error (excOfStatus failStatus)) := by
  have hsuccAll : ∀ j, j < k →
      ∃ (flds : List (String × JsonValue)) (rs : List JsonValue),
        srv j path (_unionRequestData [("page", JsonValue.str "1")] d0) =
          some ⟨200, JsonValue.obj flds⟩ ∧
        flds.lookup "results" = some (JsonValue.list rs) := by
    intro j hj
    rcases Nat.eq_zero_or_pos j with h0 | hpos
    · subst h0
      exact ⟨fields, xs0, hfirst, hres⟩
    · exact hsucc j hpos hj
  simp only [pagedRequestGet, requestGet, hfirst]
  rw [checkStatusCodes_200]
  simp only [jsonGetKey, hres, hlast]
  rw [pagedLoop_fail_at srv path _ k failStatus failBody hsuccAll hfail hfs
    (pyRange 1 L) 1 xs0 [_] hk1 ?hlen]
  case hlen =>
    rw [length_pyRange]
    omega
  have harith : k - 1 + 1 = k := by omega
  rw [harith, List.singleton_append, List.replicate_succ]

/-- Claim C8, witness: first page fine (`last_page = 3`), second call answers
500; the loop stops after exactly two requests with `AspaceError`. -/
theorem pagedRequestGet_error_propagates_witness :
    ((500 : Nat) ≠ 200 ∧ (1 : Nat) ≤ 1 ∧ ((1 : Nat) : Int) ≤ 3 - 1) ∧
    pagedRequestGet srvFailSecond "/subjects" [] =
      ([[("page", JsonValue.str "1")], [("page", JsonValue.str "1")]],
        Except.error PyExc.AspaceError) :=
  ⟨⟨by decide, by decide, by decide⟩, by
    have h := pagedRequestGet_error_propagates srvFailSecond "/subjects" []
      [("results", JsonValue.list [JsonValue.int 1, JsonValue.int 2]),
        ("last_page", JsonValue.int 3)] 3 1 500 JsonValue.null
      [JsonValue.int 1, JsonValue.int 2]
      rfl rfl rfl (by decide) (by decide)
      (fun j h1 h2 => absurd (Nat.lt_of_le_of_lt h1 h2) (Nat.lt_irrefl 1))
      rfl (by decide)
    exact h⟩

/-! ### allIdsRequestGet -/

theorem allIdsRequestGet_eval (srv : Server) (path : String) (xs : List JsonValue)
    (h : srv 0 path [("all_ids", JsonValue.bool true)] = some ⟨200, JsonValue.list xs⟩) :
    allIdsRequestGet srv path =
      ([[("all_ids", JsonValue.bool true)]],
        if xs.all isinstanceInt then Except.ok (JsonValue.list xs)
        else Except.error PyExc.NotPaginated) := by
  simp only [allIdsRequestGet, requestGet, h]
  rw [checkStatusCodes_200]
  simp only [pyIter]
  by_cases hall : xs.all isinstanceInt = true
  · rw [if_pos hall, if_pos hall]
  · rw [if_neg hall, if_neg hall]

/-- Claim C6, counterexample: a response sequence `[true]` contains no
integer element in the JSON sense, yet `allIdsRequestGet` returns it
unchanged instead of raising `NotPaginated`, because python's
`isinstance(True, int)` holds. -/
theorem allIdsRequestGet_accepts_bool_counterexample :
    allIdsRequestGet srvBoolIds "/x" =
      ([[("all_ids", JsonValue.bool true)]],
        Except.ok (JsonValue.list [JsonValue.bool true])) ∧
    (allIdsRequestGet srvBoolIds "/x").2 ≠ Except.error PyExc.NotPaginated := by
  refine ⟨rfl, ?_⟩
  intro hcontra
  have h2 : (Except.ok (JsonValue.list [JsonValue.bool true]) : Except PyExc JsonValue) =
      Except.error PyExc.NotPaginated := hcontra
  simp at h2

/-- Claim C6, amended: `allIdsRequestGet` issues a single `requestGet`
carrying `all_ids = True`; it returns the response sequence unchanged when
every element passes python's `isinstance(_, int)` check (which accepts both
integers and booleans), and raises `NotPaginated` when some element fails
that check. -/
theorem allIdsRequestGet_behavior (srv : Server) (path : String) (xs : List JsonValue)
    (h : srv 0 path [("all_ids", JsonValue.bool true)] = some ⟨200, JsonValue.list xs⟩) :
    allIdsRequestGet srv path =
      ([[("all_ids", JsonValue.bool true)]],
        if xs.all isinstanceInt then Except.ok (JsonValue.list xs)
        else Except.error PyExc.NotPaginated) :=
  allIdsRequestGet_eval srv path xs h

/-- Claim C6, witness: at `[1, "x", 3]` the check fails and `NotPaginated`
is raised. -/
theorem allIdsRequestGet_behavior_witness :
    (srvMixedIds 0 "/x" [("all_ids", JsonValue.bool true)] =
      some ⟨200, JsonValue.list [JsonValue.int 1, JsonValue.str "x", JsonValue.int 3]⟩) ∧
    allIdsRequestGet srvMixedIds "/x" =
      ([[("all_ids", JsonValue.bool true)]], Except.error PyExc.NotPaginated) :=
  ⟨rfl, allIdsRequestGet_behavior srvMixedIds "/x"
    [JsonValue.int 1, JsonValue.str "x", JsonValue.int 3] rfl⟩

/-- Claim C10: a response sequence whose elements are all integers or
booleans (the empty sequence included) is returned unchanged by
`allIdsRequestGet` — booleans pass the `isinstance(item, int)` check because
python's `bool` is a subclass of `int`. -/
theorem allIdsRequestGet_bool_elements_ok (srv : Server) (path : String)
    (xs : List JsonValue)
    (h : srv 0 path [("all_ids", JsonValue.bool true)] = some ⟨200, JsonValue.list xs⟩)
    (helts : ∀ x ∈ xs, (∃ n : Int, x = JsonValue.int n) ∨ (∃ b : Bool, x = JsonValue.bool b)) :
    allIdsRequestGet srv path =
      ([[("all_ids", JsonValue.bool true)]], Except.ok (JsonValue.list xs)) := by
  have hall : xs.all isinstanceInt = true := by
    rw [List.all_eq_true]
    intro x hx
    rcases helts x hx with ⟨n, rfl⟩ | ⟨b, rfl⟩ <;> rfl
  rw [allIdsRequestGet_eval srv path xs h, if_pos hall]

/-- Claim C10, witness: the sequence `[true, 2]` is returned unchanged. -/
theorem allIdsRequestGet_bool_elements_ok_witness :
    (srvBoolIntIds 0 "/x" [("all_ids", JsonValue.bool true)] =
      some ⟨200, JsonValue.list [JsonValue.bool true, JsonValue.int 2]⟩) ∧
    allIdsRequestGet srvBoolIntIds "/x" =
      ([[("all_ids", JsonValue.bool true)]],
        Except.ok (JsonValue.list [JsonValue.bool true, JsonValue.int 2])) :=
  ⟨rfl, allIdsRequestGet_bool_elements_ok srvBoolIntIds "/x"
    [JsonValue.bool true, JsonValue.int 2] rfl
    (fun x hx => by
      rcases List.mem_cons.mp hx with rfl | hx2
      · exact Or.inr ⟨true, rfl⟩
      · rcases List.mem_cons.mp hx2 with rfl | hx3
        · exact Or.inl ⟨2, rfl⟩
        · exact absurd hx3 (List.not_mem_nil x))⟩

end Aspace
